import Mathlib

/-!
Shallow embedding of the gosocks SOCKS5 relay engine (`connection.go` and
`socks.go`) together with proofs about its timeout-bounded I/O primitives,
its handshake state machine and its relay orchestrator.

Connections are modelled as the sequence of outcomes their `Read`/`Write`
calls produce; the scheduler choice of the `select` races is modelled by an
explicit `deadlineFirst` flag; goroutine results travel through the same
single-slot channels as in the source, here represented by plain values.
-/

namespace GoSocks

/-- The reply reason vocabulary (`RequestReplyReason`). `socks.go` refers to
the constants by name; the closed enum itself is listed in the spec. -/
inductive RequestReplyReason where
  | succeeded
  | generalFailure
  | connectionNotAllowed
  | networkUnreachable
  | hostUnreachable
  | connectionRefused
  | ttlExpired
  | commandNotSupported
  | addressTypeNotSupported
  | methodNotSupported
  deriving DecidableEq, Repr

/-- The engine's `Error` type: a machine-actionable reason plus the
underlying cause (modelled as the formatted error string). -/
structure SocksError where
  reason : RequestReplyReason
  err : String
  deriving DecidableEq, Repr

/-- Outcome of one `conn.Read(buf)` call inside `connectionRead`: either
`i` bytes delivered into the buffer (`chunk`, with `bytes.length ≤ 1024`
for a real connection) or an error, EOF included (`fail`). -/
inductive ReadEvent where
  | chunk (bytes : List Nat)
  | fail (e : String)
  deriving DecidableEq, Repr

/-- The chunk capacity used by `connectionRead` (`bufLen := 1024`). -/
def bufLen : Nat := 1024

/-- The background goroutine of `connectionRead`: repeatedly `Read`; on an
error send it on the error channel; otherwise append `buf[:i]` to the
accumulator `ret` and, when a read returned fewer than `bufLen` bytes,
signal completion. `none` models a goroutine that never reaches a terminal
event, i.e. stays blocked in `Read` past the deadline. -/
def readLoop (events : List ReadEvent) (acc : List Nat) :
    Option (Except String (List Nat)) :=
  match events with
  | [] => none
  | ReadEvent.fail e :: _ => some (Except.error e)
  | ReadEvent.chunk b :: rest =>
      if b.length < bufLen then some (Except.ok (acc ++ b))
      else readLoop rest (acc ++ b)

/-- `connectionRead(ctx, conn, timeout)`: races the background read loop
against the per-call deadline and returns exactly one outcome.
`deadlineFirst` records that `ctx2.Done()` fired before a terminal read
event was selected; the Go function then returns `nil` data and a timeout
error, which the `Except.error` branch models. -/
def connectionRead (deadlineFirst : Bool) (events : List ReadEvent) :
    Except String (List Nat) :=
  match readLoop events [] with
  | none => Except.error "timeout when reading on connection"
  | some r =>
      if deadlineFirst then Except.error "timeout when reading on connection"
      else r

/-- Outcome of one `conn.Write(data)` call inside `connectionWrite`: the
connection accepted `n` bytes of the passed buffer (`accepted`), or the
call failed (`fail`). -/
inductive WriteEvent where
  | accepted (n : Nat)
  | fail (e : String)
  deriving DecidableEq, Repr

/-- The background goroutine of `connectionWrite`: each iteration calls
`conn.Write(data)` with the FULL buffer (as the source does), so the
connection receives `data.take n` when `n` bytes are accepted; the loop
stops with success when `written == toWriteLeft`, otherwise it subtracts
and retries. The second component is the byte stream the connection has
received so far; `none` models a loop that never reaches a terminal event.
`toWriteLeft` is an `Int` because the Go counter can go negative. -/
def writeLoop (data : List Nat) (events : List WriteEvent) (toWriteLeft : Int)
    (recv : List Nat) : Option (Except String Unit) × List Nat :=
  match events with
  | [] => (none, recv)
  | WriteEvent.fail e :: _ => (some (Except.error e), recv)
  | WriteEvent.accepted n :: rest =>
      if (n : Int) = toWriteLeft then (some (Except.ok ()), recv ++ data.take n)
      else writeLoop data rest (toWriteLeft - (n : Int)) (recv ++ data.take n)

/-- `connectionWrite(ctx, conn, data, timeout)`: races the background write
loop against the deadline. The first component is the value the caller
gets; the second is what the connection received from the loop's writes. -/
def connectionWrite (deadlineFirst : Bool) (data : List Nat)
    (events : List WriteEvent) : Except String Unit × List Nat :=
  match writeLoop data events (data.length : Int) [] with
  | (none, recv) => (Except.error "timeout when writing to connection", recv)
  | (some r, recv) =>
      (if deadlineFirst then Except.error "timeout when writing to connection"
       else r, recv)

/-- `Proxy.copyClientToRemote`: `select` on the global shutdown channel
`p.Done` with a `default` clause, checked once before the copy starts. If
`p.Done` is already signaled the goroutine sends `nil` without invoking the
copy collaborator; otherwise the collaborator's result `copyResult` is sent,
wrapped on failure. The first component is the value sent on the direction's
single-slot channel; the second records whether the collaborator
(`CopyFromClientToRemote`) was invoked. -/
def copyClientToRemote (doneSignaled : Bool) (copyResult : Option String) :
    Option String × Bool :=
  if doneSignaled then (none, false)
  else
    match copyResult with
    | some e => (some ("error on copy from Client to Remote: " ++ e), true)
    | none => (none, true)

/-- `Proxy.copyRemoteToClient`: same shape as `copyClientToRemote`, for the
outward-to-client direction (`CopyFromRemoteToClient`). -/
def copyRemoteToClient (doneSignaled : Bool) (copyResult : Option String) :
    Option String × Bool :=
  if doneSignaled then (none, false)
  else
    match copyResult with
    | some e => (some ("error on copy from Remote to Client: " ++ e), true)
    | none => (none, true)

/-- The tail of `Proxy.socks` after `wg.Wait()`: read `errChannel1` then
`errChannel2`; a non-nil value from either becomes an `Error` with reason
`RequestReplyHostUnreachable` wrapping that value, and only when both are
nil does the orchestrator return nil. -/
def socksRelayResult (e1 e2 : Option String) : Option SocksError :=
  match e1 with
  | some err => some ⟨RequestReplyReason.hostUnreachable, err⟩
  | none =>
      match e2 with
      | some err => some ⟨RequestReplyReason.hostUnreachable, err⟩
      | none => none

/-- Modelled from the spec: protocol version byte for SOCKS4 (`Version4` is
declared outside the provided source files; the spec's wire examples use
version byte `04`). -/
def Version4 : Nat := 4

/-- Modelled from the spec: protocol version byte for SOCKS5 (`Version5`;
the spec's wire examples use version byte `05`). -/
def Version5 : Nat := 5

/-- Modelled from the spec: the `NoAuthenticationRequired` method byte
(`MethodNoAuthRequired`; the spec's method-selection reply is `{5, 0}`). -/
def MethodNoAuthRequired : Nat := 0

/-- The parsed greeting header: version byte plus the advertised method
bytes (`header.Version`, `header.Methods`). -/
structure Header where
  version : Nat
  methods : List Nat
  deriving DecidableEq, Repr

/-- Modelled from the spec: `parseHeader` is declared outside the provided
source files; per the spec it expects at least two bytes - a version and a
method count N - followed by N method bytes, and fails on malformed or
short buffers. -/
def parseHeader (b : List Nat) : Except String Header :=
  match b with
  | v :: n :: rest =>
      if rest.length = n then Except.ok ⟨v, rest⟩
      else Except.error "malformed header"
  | _ => Except.error "buffer too short"

/-- Hex rendering of a version byte, as Go's `%#x` prints it (the argument
is a `byte` in the source, so two hex digits suffice). -/
def hexDigit (n : Nat) : Char :=
  if n < 10 then Char.ofNat (48 + n) else Char.ofNat (87 + n)

/-- Hex digits of a byte without the `0x` marker. -/
def hexString (n : Nat) : String :=
  if n < 16 then String.mk [hexDigit n]
  else String.mk [hexDigit (n / 16 % 16), hexDigit (n % 16)]

/-- Observable trace of one `handleConnect` run: the reply frames written to
the client (each a byte list) and whether control reached the
method-selection loop. -/
structure ConnectTrace where
  framesWritten : List (List Nat)
  methodSelection : Bool
  deriving DecidableEq, Repr

/-- The part of `Proxy.handleConnect` after the greeting buffer has been
parsed (source lines 162-187): the version switch (`Version4` and the
default case fail as `RequestReplyCommandNotSupported`), the scan of
`header.Methods` for `MethodNoAuthRequired` (failing as
`RequestReplyMethodNotSupported`), and the 2-byte selection reply
`{Version5, MethodNoAuthRequired}` written with `connectionWrite`, whose
failure is `RequestReplyGeneralFailure`. `writeErr` is the outcome of that
`connectionWrite` call. -/
def handleConnectCore (h : Header) (writeErr : Option String) :
    Option SocksError × ConnectTrace :=
  if h.version = Version4 then
    (some ⟨RequestReplyReason.commandNotSupported, "socks4 not yet implemented"⟩,
      ⟨[], false⟩)
  else if h.version = Version5 then
    if MethodNoAuthRequired ∈ h.methods then
      match writeErr with
      | some e =>
          (some ⟨RequestReplyReason.generalFailure,
            "could not send connect reply: " ++ e⟩,
            ⟨[[Version5, MethodNoAuthRequired]], true⟩)
      | none => (none, ⟨[[Version5, MethodNoAuthRequired]], true⟩)
    else
      (some ⟨RequestReplyReason.methodNotSupported,
        "we currently only support no authentication"⟩, ⟨[], true⟩)
  else
    (some ⟨RequestReplyReason.commandNotSupported,
      "version 0x" ++ hexString h.version ++ " not yet implemented"⟩,
      ⟨[], false⟩)

/-- `Proxy.handleConnect`: `connectionRead` (whose failure, timeout included,
is `RequestReplyConnectionRefused`), then `parseHeader` (same reason on
failure), then the parsed-header logic. `readResult` is the outcome of the
greeting-phase `connectionRead`. -/
def handleConnect (readResult : Except String (List Nat))
    (writeErr : Option String) : Option SocksError × ConnectTrace :=
  match readResult with
  | Except.error e => (some ⟨RequestReplyReason.connectionRefused, e⟩, ⟨[], false⟩)
  | Except.ok buf =>
      match parseHeader buf with
      | Except.error e =>
          (some ⟨RequestReplyReason.connectionRefused, e⟩, ⟨[], false⟩)
      | Except.ok header => handleConnectCore header writeErr

/-- `Proxy.handleRequest`: `connectionRead` (whose failure is wrapped as
`RequestReplyGeneralFailure` with cause `error on ConnectionRead: ...`),
then `parseRequest`. `parseRequest` is declared outside the provided source
files, so its outcome on the read buffer is abstracted as `parse`; the
parsed request payload is irrelevant here and elided. -/
def handleRequest (readResult : Except String (List Nat))
    (parse : List Nat → Except SocksError Unit) : Option SocksError :=
  match readResult with
  | Except.error e =>
      some ⟨RequestReplyReason.generalFailure, "error on ConnectionRead: " ++ e⟩
  | Except.ok buf =>
      match parse buf with
      | Except.error e2 => some e2
      | Except.ok _ => none

/-- Per-session inputs of one `Proxy.socks` run, each phase abstracted by
its outcome: `handleConnect`, `handleRequest`, `Proxyhandler.PreHandler`,
`handleRequestReply`, the state of the global shutdown channel `p.Done`,
and the two copy collaborators' results. -/
structure SessionOutcomes where
  connectResult : Option SocksError
  requestResult : Option SocksError
  preHandlerResult : Option SocksError
  requestReplyResult : Option SocksError
  doneSignaled : Bool
  copy1 : Option String
  copy2 : Option String
  deriving DecidableEq, Repr

/-- Observable trace of one `Proxy.socks` run: whether the request-phase
read was performed and whether the relay (data-copy) phase was started. -/
structure SocksTrace where
  requestReadPerformed : Bool
  relayStarted : Bool
  deriving DecidableEq, Repr

/-- `Proxy.socks`: strictly sequential phases, each short-circuiting on its
error; when all succeed, the two copy goroutines run and their channel
values are reduced by `socksRelayResult`. -/
def socks (o : SessionOutcomes) : Option SocksError × SocksTrace :=
  match o.connectResult with
  | some e => (some e, ⟨false, false⟩)
  | none =>
      match o.requestResult with
      | some e => (some e, ⟨true, false⟩)
      | none =>
          match o.preHandlerResult with
          | some e => (some e, ⟨true, false⟩)
          | none =>
              match o.requestReplyResult with
              | some e => (some e, ⟨true, false⟩)
              | none =>
                  (socksRelayResult
                    (copyClientToRemote o.doneSignaled o.copy1).1
                    (copyRemoteToClient o.doneSignaled o.copy2).1,
                    ⟨true, true⟩)

/-- `Proxy.handle`: calls `p.socks` and, whenever it returns a non-nil
`*Error`, attempts exactly one best-effort error reply via
`socksErrorReply`. The value counts the reply attempts of one session. -/
def handleErrorReplyAttempts (o : SessionOutcomes) : Nat :=
  match (socks o).1 with
  | some _ => 1
  | none => 0

/-- Full chunks of exactly `bufLen` bytes keep the read loop running and are
appended to the accumulator in order. -/
theorem readLoop_full_chunks (before : List (List Nat)) (evs : List ReadEvent)
    (acc : List Nat) (hfull : ∀ b ∈ before, b.length = bufLen) :
    readLoop (before.map ReadEvent.chunk ++ evs) acc
      = readLoop evs (acc ++ before.flatten) := by
  induction before generalizing acc with
  | nil => simp
  | cons b bs ih =>
      have hb : b.length = bufLen := hfull b (by simp)
      have hrest : ∀ x ∈ bs, x.length = bufLen := fun x hx => hfull x (by simp [hx])
      have hstep : readLoop (ReadEvent.chunk b :: (bs.map ReadEvent.chunk ++ evs)) acc
          = readLoop (bs.map ReadEvent.chunk ++ evs) (acc ++ b) := by
        simp [readLoop, hb]
      simp only [List.map_cons, List.cons_append]
      rw [hstep, ih (acc ++ b) hrest]
      simp [List.append_assoc]

/-- When the deadline is selected first, `connectionRead` returns the timeout
error and no data, whatever the connection would have delivered. -/
theorem connectionRead_deadline (events : List ReadEvent) :
    connectionRead true events = Except.error "timeout when reading on connection" := by
  unfold connectionRead
  cases readLoop events [] <;> simp

/-- When the deadline is selected first, `connectionWrite` reports the timeout
error to its caller. -/
theorem connectionWrite_deadline (data : List Nat) (events : List WriteEvent) :
    (connectionWrite true data events).1
      = Except.error "timeout when writing to connection" := by
  unfold connectionWrite
  rcases h : writeLoop data events (data.length : Int) [] with ⟨fst, snd⟩
  cases fst <;> simp

/-- C1: after both relay directions have reported their outcomes, the session
result of `Proxy.socks` is nil exactly when both outcomes are nil; a non-nil
outcome from either direction yields an `Error` with reason `HostUnreachable`
wrapping that direction's copy error. The result is a function of the pair of
outcomes alone, so it cannot depend on which direction finished first. -/
theorem relayResult_conjunction (c1 c2 : Option String) :
    (socksRelayResult (copyClientToRemote false c1).1 (copyRemoteToClient false c2).1 = none
      ↔ (c1 = none ∧ c2 = none)) ∧
    (∀ s, c1 = some s →
      socksRelayResult (copyClientToRemote false c1).1 (copyRemoteToClient false c2).1
        = some ⟨RequestReplyReason.hostUnreachable,
            "error on copy from Client to Remote: " ++ s⟩) ∧
    (∀ s, c1 = none → c2 = some s →
      socksRelayResult (copyClientToRemote false c1).1 (copyRemoteToClient false c2).1
        = some ⟨RequestReplyReason.hostUnreachable,
            "error on copy from Remote to Client: " ++ s⟩) := by
  refine ⟨?_, ?_, ?_⟩
  · cases c1 <;> cases c2 <;>
      simp [socksRelayResult, copyClientToRemote, copyRemoteToClient]
  · intro s hs
    subst hs
    simp [socksRelayResult, copyClientToRemote, copyRemoteToClient]
  · intro s h1 h2
    subst h1
    subst h2
    simp [socksRelayResult, copyClientToRemote, copyRemoteToClient]

/-- C1 witness: a failing client-to-remote copy with a clean reverse
direction produces the `HostUnreachable` error wrapping the copy cause. -/
theorem relayResult_conjunction_witness :
    socksRelayResult (copyClientToRemote false (some "x")).1
        (copyRemoteToClient false none).1
      = some ⟨RequestReplyReason.hostUnreachable,
          "error on copy from Client to Remote: " ++ "x"⟩ :=
  (relayResult_conjunction (some "x") none).2.1 "x" rfl

/-- C2 (code bug): `connectionWrite` re-sends the FULL buffer on every retry
and compares the accepted count against the remaining count, so a connection
that accepts one byte per write call receives `[1, 1]` - the first byte
twice - while `connectionWrite` reports success for `data = [1, 2]`. The
delivered stream is not the buffer. -/
theorem connectionWrite_short_write_bug :
    (connectionWrite false [1, 2] [WriteEvent.accepted 1, WriteEvent.accepted 1]).1
        = Except.ok () ∧
    (connectionWrite false [1, 2] [WriteEvent.accepted 1, WriteEvent.accepted 1]).2
        = [1, 1] ∧
    ([1, 1] : List Nat) ≠ [1, 2] :=
  ⟨rfl, rfl, by decide⟩

/-- C3: with a connection delivering full `bufLen`-byte chunks followed by a
short chunk (end-of-frame) and no timeout, `connectionRead` returns exactly
the concatenation of those chunks, once, stopping at the first short read:
any later events are never consumed. -/
theorem connectionRead_accumulates (before : List (List Nat))
    (lastChunk : List Nat) (rest : List ReadEvent)
    (hfull : ∀ b ∈ before, b.length = bufLen)
    (hlast : lastChunk.length < bufLen) :
    connectionRead false
        (before.map ReadEvent.chunk ++ (ReadEvent.chunk lastChunk :: rest))
      = Except.ok ((before ++ [lastChunk]).flatten) := by
  unfold connectionRead
  rw [readLoop_full_chunks before _ [] hfull]
  simp [readLoop, hlast]

/-- C3 witness: one full 1024-byte chunk followed by a one-byte chunk is
returned as their concatenation. -/
theorem connectionRead_accumulates_witness :
    connectionRead false
        ([List.replicate bufLen 7].map ReadEvent.chunk ++ (ReadEvent.chunk [3] :: []))
      = Except.ok (([List.replicate bufLen 7] ++ [[3]]).flatten) :=
  connectionRead_accumulates [List.replicate bufLen 7] [3] []
    (by intro b hb; simp at hb; subst hb; simp)
    (by decide)

/-- C4: whenever the deadline is selected before a terminal background event
(in particular when the background loop never reaches one), `connectionRead`
returns the timeout error with no data and `connectionWrite` returns the
timeout error; no partially accumulated bytes are returned as success. -/
theorem connection_io_timeout (events : List ReadEvent) (wdata : List Nat)
    (wevents : List WriteEvent) :
    connectionRead true events = Except.error "timeout when reading on connection" ∧
    (connectionWrite true wdata wevents).1
      = Except.error "timeout when writing to connection" ∧
    (readLoop events [] = none →
      connectionRead false events = Except.error "timeout when reading on connection") ∧
    ((writeLoop wdata wevents (wdata.length : Int) []).1 = none →
      (connectionWrite false wdata wevents).1
        = Except.error "timeout when writing to connection") := by
  refine ⟨connectionRead_deadline events, connectionWrite_deadline wdata wevents, ?_, ?_⟩
  · intro hnone
    unfold connectionRead
    rw [hnone]
  · intro hnone
    unfold connectionWrite
    rcases hw : writeLoop wdata wevents (wdata.length : Int) [] with ⟨fst, snd⟩
    rw [hw] at hnone
    simp only at hnone
    subst hnone
    simp

/-- C4 witness: a connection that never produces a terminal event forces the
timeout error on both primitives. -/
theorem connection_io_timeout_witness :
    connectionRead false [] = Except.error "timeout when reading on connection" ∧
    (connectionWrite false [1] []).1 = Except.error "timeout when writing to connection" :=
  ⟨(connection_io_timeout [] [1] []).2.2.1 rfl,
   (connection_io_timeout [] [1] []).2.2.2 rfl⟩

/-- C5 counterexample: a session whose handshake, request, dial and success
reply all succeed reaches the relay phase; when the client-to-remote copy
then fails, `Proxy.handle` still attempts an error reply - a reply frame is
written to the client after relaying has begun, contradicting the claim. -/
theorem errorReply_after_relay :
    (socks ⟨none, none, none, none, false, some "broken pipe", none⟩).2.relayStarted
        = true ∧
    handleErrorReplyAttempts ⟨none, none, none, none, false, some "broken pipe", none⟩
        = 1 :=
  ⟨rfl, rfl⟩

/-- C5 (amended): `Proxy.handle` attempts an error reply exactly when the
session fails - whether before the relay phase or during it - and at most
one such reply per session; a successful session triggers none. -/
theorem errorReply_once_iff_failure (o : SessionOutcomes) :
    handleErrorReplyAttempts o ≤ 1 ∧
    (handleErrorReplyAttempts o = 1 ↔ (socks o).1 ≠ none) ∧
    ((socks o).1 = none → handleErrorReplyAttempts o = 0) := by
  unfold handleErrorReplyAttempts
  cases h : (socks o).1 <;> simp [h]

/-- C5 amended-claim witness: an all-successful session attempts no error
reply. -/
theorem errorReply_once_iff_failure_witness :
    handleErrorReplyAttempts ⟨none, none, none, none, false, none, none⟩ = 0 :=
  (errorReply_once_iff_failure ⟨none, none, none, none, false, none, none⟩).2.2 rfl

/-- C6: for a parsed greeting with version V5: if `NoAuthenticationRequired`
is advertised, `handleConnect` writes exactly one 2-byte `{5, 0}` reply and
succeeds, a write failure becoming `GeneralFailure`; otherwise it fails with
`MethodNotSupported`, writes nothing, and the request phase is never read. -/
theorem handleConnectCore_v5_methods (h : Header) (writeErr : Option String)
    (hv : h.version = Version5) :
    (MethodNoAuthRequired ∈ h.methods →
      (handleConnectCore h writeErr).2.framesWritten = [[5, 0]] ∧
      (writeErr = none → (handleConnectCore h writeErr).1 = none) ∧
      (∀ e, writeErr = some e →
        (handleConnectCore h writeErr).1
          = some ⟨RequestReplyReason.generalFailure,
              "could not send connect reply: " ++ e⟩)) ∧
    (MethodNoAuthRequired ∉ h.methods →
      (handleConnectCore h writeErr).1
        = some ⟨RequestReplyReason.methodNotSupported,
            "we currently only support no authentication"⟩ ∧
      (handleConnectCore h writeErr).2.framesWritten = [] ∧
      (∀ o : SessionOutcomes, o.connectResult = (handleConnectCore h writeErr).1 →
        (socks o).2.requestReadPerformed = false)) := by
  refine ⟨fun hm => ?_, fun hm => ?_⟩
  · have hm0 : (0 : Nat) ∈ h.methods := hm
    cases writeErr <;>
      simp [handleConnectCore, hv, Version4, Version5, MethodNoAuthRequired, hm0]
  · have hcore : handleConnectCore h writeErr
        = (some ⟨RequestReplyReason.methodNotSupported,
            "we currently only support no authentication"⟩, ⟨[], true⟩) := by
      simp [handleConnectCore, hv, Version4, Version5, hm]
    refine ⟨by rw [hcore], by rw [hcore], ?_⟩
    intro o ho
    rw [hcore] at ho
    unfold socks
    rw [ho]

/-- C6 witness: greeting `{version 5, methods [0]}` with a clean write gets
exactly the `[5, 0]` reply and a nil result. -/
theorem handleConnectCore_v5_methods_witness :
    (handleConnectCore ⟨5, [0]⟩ none).2.framesWritten = [[5, 0]] ∧
    (handleConnectCore ⟨5, [0]⟩ none).1 = none := by
  have hmain := handleConnectCore_v5_methods ⟨5, [0]⟩ none rfl
  have hpart := hmain.1 (by decide)
  exact ⟨hpart.1, hpart.2.1 rfl⟩

/-- C7: `handleConnect` proceeds past the version check only for V5; version
4 and any other value fail as `CommandNotSupported` with a descriptive
cause, before method selection occurs. -/
theorem handleConnectCore_version_gate (h : Header) (writeErr : Option String) :
    (h.version = Version4 →
      handleConnectCore h writeErr
        = (some ⟨RequestReplyReason.commandNotSupported, "socks4 not yet implemented"⟩,
            ⟨[], false⟩)) ∧
    (h.version ≠ Version4 → h.version ≠ Version5 →
      handleConnectCore h writeErr
        = (some ⟨RequestReplyReason.commandNotSupported,
            "version 0x" ++ hexString h.version ++ " not yet implemented"⟩,
            ⟨[], false⟩)) ∧
    (h.version = Version5 → (handleConnectCore h writeErr).2.methodSelection = true) := by
  refine ⟨fun h4 => ?_, fun h4 h5 => ?_, fun h5 => ?_⟩
  · simp [handleConnectCore, h4, Version4, Version5]
  · simp [handleConnectCore, h4, h5]
  · by_cases hm : MethodNoAuthRequired ∈ h.methods
    · cases writeErr <;>
        simp [handleConnectCore, h5, Version4, Version5, hm]
    · simp [handleConnectCore, h5, Version4, Version5, hm]

/-- C7 witness: version 4 and version 6 greetings both fail as
`CommandNotSupported` without reaching method selection, even though the
method set advertises no-authentication. -/
theorem handleConnectCore_version_gate_witness :
    handleConnectCore ⟨4, [0]⟩ none
      = (some ⟨RequestReplyReason.commandNotSupported, "socks4 not yet implemented"⟩,
          ⟨[], false⟩) ∧
    handleConnectCore ⟨6, [0]⟩ none
      = (some ⟨RequestReplyReason.commandNotSupported,
          "version 0x" ++ hexString 6 ++ " not yet implemented"⟩, ⟨[], false⟩) :=
  ⟨(handleConnectCore_version_gate ⟨4, [0]⟩ none).1 rfl,
   (handleConnectCore_version_gate ⟨6, [0]⟩ none).2.1 (by decide) (by decide)⟩

/-- C8: when the global shutdown signal is already set as a copy goroutine
starts, that direction reports nil without invoking the copy collaborator;
for a session whose earlier phases succeeded, both directions are immediate
no-ops and the session result is success. -/
theorem shutdown_gate_noop (c1 c2 : Option String) (o : SessionOutcomes)
    (hdone : o.doneSignaled = true)
    (hc : o.connectResult = none) (hr : o.requestResult = none)
    (hp : o.preHandlerResult = none) (hq : o.requestReplyResult = none) :
    copyClientToRemote true c1 = (none, false) ∧
    copyRemoteToClient true c2 = (none, false) ∧
    (socks o).1 = none ∧ (socks o).2.relayStarted = true := by
  refine ⟨rfl, rfl, ?_, ?_⟩ <;>
    simp [socks, hc, hr, hp, hq, hdone, copyClientToRemote, copyRemoteToClient,
      socksRelayResult]

/-- C8 witness: with the shutdown signal set, even copy collaborators that
would fail are never invoked and the session result is success. -/
theorem shutdown_gate_noop_witness :
    copyClientToRemote true (some "x") = (none, false) ∧
    copyRemoteToClient true (some "y") = (none, false) ∧
    (socks ⟨none, none, none, none, true, some "x", some "y"⟩).1 = none ∧
    (socks ⟨none, none, none, none, true, some "x", some "y"⟩).2.relayStarted = true :=
  shutdown_gate_noop (some "x") (some "y")
    ⟨none, none, none, none, true, some "x", some "y"⟩ rfl rfl rfl rfl rfl

/-- C9: a read failure (deadline timeout included) in the greeting phase is
surfaced with reason `ConnectionRefused`, while a read failure in the request
phase is surfaced with reason `GeneralFailure`; the reason depends only on
the phase, and each failure carries exactly one reason. -/
theorem read_failure_phase_reasons (e : String) (writeErr : Option String)
    (parse : List Nat → Except SocksError Unit) (events : List ReadEvent) :
    (handleConnect (Except.error e) writeErr).1
      = some ⟨RequestReplyReason.connectionRefused, e⟩ ∧
    handleRequest (Except.error e) parse
      = some ⟨RequestReplyReason.generalFailure, "error on ConnectionRead: " ++ e⟩ ∧
    (handleConnect (connectionRead true events) writeErr).1
      = some ⟨RequestReplyReason.connectionRefused,
          "timeout when reading on connection"⟩ ∧
    handleRequest (connectionRead true events) parse
      = some ⟨RequestReplyReason.generalFailure,
          "error on ConnectionRead: " ++ "timeout when reading on connection"⟩ := by
  refine ⟨rfl, rfl, ?_, ?_⟩ <;>
    · rw [connectionRead_deadline events]
      rfl

/-- C10: any read error (EOF included) inside `connectionRead` makes it
return that error with nil data, discarding every byte accumulated so far -
in particular a stream of full 1024-byte chunks followed by EOF yields an
error result, never the accumulated bytes. -/
theorem connectionRead_error_discards (before : List (List Nat)) (e : String)
    (rest : List ReadEvent) (hfull : ∀ b ∈ before, b.length = bufLen) :
    connectionRead false (before.map ReadEvent.chunk ++ (ReadEvent.fail e :: rest))
      = Except.error e := by
  unfold connectionRead
  rw [readLoop_full_chunks before _ [] hfull]
  simp [readLoop]

/-- C10 witness: exactly 1024 bytes followed by EOF is reported as the EOF
error, not as the accumulated data. -/
theorem connectionRead_error_discards_witness :
    connectionRead false
        ([List.replicate bufLen 7].map ReadEvent.chunk ++ (ReadEvent.fail "EOF" :: []))
      = Except.error "EOF" :=
  connectionRead_error_discards [List.replicate bufLen 7] "EOF" []
    (by intro b hb; simp at hb; subst hb; simp)

end GoSocks
